import Mathlib

/-!
Shallow embedding of the chia-operator ChiaNode reconciliation core.

Source files embedded:
- internal/controller/chianode_controller.go : the ChiaNodeReconciler
  (Reconcile, assembleBaseService, assembleInternalService,
  assembleHeadlessService, assembleChiaExporterService, assembleStatefulset,
  getChiaVolumesAndTemplates, getChiaVolumeMounts, getChiaNodeEnv,
  getCommonLabels, getOwnerReference, getFullNodePort).
- the shared controller helpers file (package-level getCommonLabels,
  getChiaExporterContainer, daemonPort, chiaExporterPort,
  defaultChiaExporterImage, controllerOwner, reconcileService,
  reconcileStatefulset); embedded here under the namespace Controller.

Modelling conventions:
- Go maps of string to string (labels, annotations, node selectors) are
  modelled as functions String to Option String; Go map iteration with
  last-write-wins per key is order independent for a single map, so the
  functional model is exact.
- Go pointers to optional scalars or structs are Option.
- Kubernetes resource.Quantity parsing (apimachinery, an external
  dependency) is modelled by isValidQuantity and mustParse below;
  resource.MustParse panics on a malformed string, which is modelled by
  mustParse returning none, and every function that transitively calls it
  returns Option, none standing for the panic.
- corev1.Probe, SecurityContext, PodSecurityContext and the container
  ResourceRequirements are pass-through payloads for this controller
  (copied verbatim from the Spec to the manifests); they are modelled with
  enough structure for the fixed exporter probes, everything else opaque.
- The ChiaNode API type (api/v1/chianode_types.go is not among the
  provided sources) is reconstructed from the fields the controller reads
  and from the sibling ChiaHarvester API type, which shares the same
  layout, plus Replicas and the node-specific config block.
-/

/-- String-keyed maps (labels, annotations, selectors) as partial functions. -/
abbrev Labels : Type := String → Option String

/-- The empty map. -/
def Labels.empty : Labels := fun _ => none

/-- Go assignment m[k] = v. -/
def Labels.set (m : Labels) (k v : String) : Labels :=
  fun q => if q = k then some v else m q

/-- Go loop: for k, v in addition do base[k] = v; entries of addition win. -/
def Labels.merge (base addition : Labels) : Labels :=
  fun q => match addition q with
  | some v => some v
  | none => base q

/-- Opaque pass-through payload for a container security context. -/
structure SecurityContext where
  payload : String

/-- Opaque pass-through payload for a pod security context. -/
structure PodSecurityContext where
  payload : String

/-- Opaque pass-through payload for container compute resources
(requests and limits); the Go zero value is the empty payload. -/
structure ResourceRequirements where
  payload : String

/-- Zero value of corev1.ResourceRequirements. -/
def ResourceRequirements.zero : ResourceRequirements := { payload := "" }

/-- An HTTP GET probe action (path and port). -/
structure HTTPGetAction where
  path : String
  port : Int

/-- corev1.Probe: an optional HTTP GET handler plus the two threshold
fields the exporter container sets; user-supplied probes are arbitrary
values of this type, passed through verbatim. -/
structure Probe where
  httpGet : Option HTTPGetAction
  failureThreshold : Int
  periodSeconds : Int

/-- A container environment variable. -/
structure EnvVar where
  name : String
  value : String
deriving DecidableEq

/-- A named container port. -/
structure ContainerPort where
  name : String
  containerPort : Int
  protocol : String
deriving DecidableEq

/-- A volume mount of a container. -/
structure VolumeMount where
  name : String
  mountPath : String
deriving DecidableEq

/-- The volume sources this controller produces. -/
inductive VolumeSource where
  | secret (secretName : String)
  | hostPath (path : String)
  | emptyDir
deriving DecidableEq

/-- A pod volume. -/
structure Volume where
  name : String
  source : VolumeSource
deriving DecidableEq

/-- A metav1.OwnerReference. -/
structure OwnerReference where
  apiVersion : String
  kind : String
  name : String
  uid : String
  controller : Option Bool
deriving DecidableEq

/-- A corev1.ServicePort. -/
structure ServicePort where
  port : Int
  targetPort : String
  protocol : String
  name : String
deriving DecidableEq

/-- A corev1.Service restricted to the fields this controller sets.
The Go field Namespace is called namespc because namespace is a keyword. -/
structure Service where
  name : String
  namespc : String
  labels : Labels
  annotations : Labels
  ownerReferences : List OwnerReference
  type : String
  clusterIP : String
  internalTrafficPolicy : Option String
  ports : List ServicePort
  selector : Labels

/-- A container as assembled by this controller. -/
structure Container where
  name : String
  securityContext : Option SecurityContext
  image : String
  imagePullPolicy : String
  env : List EnvVar
  ports : List ContainerPort
  livenessProbe : Option Probe
  readinessProbe : Option Probe
  startupProbe : Option Probe
  resources : ResourceRequirements
  volumeMounts : List VolumeMount

/-- Model of an apimachinery resource.Quantity that parsed successfully;
the original literal is retained. -/
structure Quantity where
  text : String
deriving DecidableEq

/-- A persistent volume claim template as produced by the controller:
requestsStorage renders Spec.Resources.Requests at the storage key. -/
structure PersistentVolumeClaim where
  name : String
  accessModes : List String
  storageClassName : String
  requestsStorage : Quantity
deriving DecidableEq

/-- A pod spec restricted to the fields this controller sets. -/
structure PodSpec where
  containers : List Container
  nodeSelector : Labels
  volumes : List Volume
  securityContext : Option PodSecurityContext

/-- A pod template. -/
structure PodTemplateSpec where
  labels : Labels
  annotations : Labels
  spec : PodSpec

/-- An appsv1.StatefulSet restricted to the fields this controller sets. -/
structure StatefulSet where
  name : String
  namespc : String
  labels : Labels
  annotations : Labels
  ownerReferences : List OwnerReference
  replicas : Option Int
  selectorMatchLabels : Labels
  serviceName : String
  template : PodTemplateSpec
  volumeClaimTemplates : List PersistentVolumeClaim

/-- Spec.Storage.ChiaRoot.PersistentVolumeClaim block. -/
structure PersistentVolumeClaimConfig where
  storageClass : String
  resourceRequest : String

/-- Spec.Storage.ChiaRoot.HostPathVolume block. -/
structure HostPathVolumeConfig where
  path : String

/-- Spec.Storage.ChiaRoot block. -/
structure ChiaRootConfig where
  persistentVolumeClaim : Option PersistentVolumeClaimConfig
  hostPathVolume : Option HostPathVolumeConfig

/-- Spec.Storage block. -/
structure StorageConfig where
  chiaRoot : Option ChiaRootConfig

/-- AdditionalMetadata inlined in the Spec: labels and annotations merged
into every child resource. -/
structure AdditionalMetadata where
  labels : Labels
  annotations : Labels

/-- Spec.ChiaExporterConfig. -/
structure ChiaExporterConfigSpec where
  image : String
  serviceLabels : Labels

/-- Spec.ChiaConfig for a ChiaNode (image, network and probe knobs). -/
structure ChiaNodeConfigSpec where
  caSecretName : String
  testnet : Option Bool
  logLevel : Option String
  timezone : Option String
  image : String
  livenessProbe : Option Probe
  readinessProbe : Option Probe
  startupProbe : Option Probe
  resources : Option ResourceRequirements
  securityContext : Option SecurityContext

/-- ChiaNodeSpec: the user-authored desired state. -/
structure ChiaNodeSpec where
  additionalMetadata : AdditionalMetadata
  chiaConfig : ChiaNodeConfigSpec
  chiaExporterConfig : ChiaExporterConfigSpec
  storage : Option StorageConfig
  serviceType : String
  imagePullPolicy : Option String
  nodeSelector : Labels
  podSecurityContext : Option PodSecurityContext
  replicas : Option Int

/-- A ChiaNode custom resource: type meta, object meta, spec and the
single status flag. -/
structure ChiaNode where
  apiVersion : String
  kind : String
  name : String
  namespc : String
  uid : String
  spec : ChiaNodeSpec
  statusReady : Bool

/-- mainnetNodePort defines the port for mainnet nodes. -/
def mainnetNodePort : Int := 8444

/-- testnetNodePort defines the port for testnet nodes. -/
def testnetNodePort : Int := 58444

/-- nodeRPCPort defines the port for the full_node RPC. -/
def nodeRPCPort : Int := 8555

/-- daemonPort defines the port for the Chia daemon (shared helpers file). -/
def Controller.daemonPort : Int := 55400

/-- chiaExporterPort defines the port for Chia Exporter instances. -/
def Controller.chiaExporterPort : Int := 9914

/-- defaultChiaExporterImage is the default image name and tag of the
chia-exporter image. -/
def Controller.defaultChiaExporterImage : String :=
  "ghcr.io/chia-network/chia-exporter:latest"

/-- controllerOwner tells k8s objects that the CR that created it is its
controller owner. -/
def Controller.controllerOwner : Bool := true

/-- Consume leading decimal digits. -/
def takeDigits : List Char → List Char × List Char
  | [] => ([], [])
  | c :: rest =>
    if c.isDigit then
      let p := takeDigits rest
      (c :: p.1, p.2)
    else ([], c :: rest)

/-- Valid suffixes of a quantity: none, binary SI, or decimal SI. -/
def isQuantitySuffix (s : String) : Bool :=
  ["", "Ki", "Mi", "Gi", "Ti", "Pi", "Ei",
   "n", "u", "m", "k", "M", "G", "T", "P", "E"].contains s

/-- A decimal exponent tail: optional sign then at least one digit. -/
def isExponentTail (cs : List Char) : Bool :=
  let cs := match cs with
    | '+' :: r => r
    | '-' :: r => r
    | r => r
  !cs.isEmpty && cs.all Char.isDigit

/-- Model of the apimachinery quantity grammar: an optional sign, a
decimal mantissa with at least one digit, then either nothing, a decimal
exponent, or an SI suffix. The empty string and non-numeric strings are
invalid, as under ParseQuantity. -/
def isValidQuantity (s : String) : Bool :=
  let cs := s.toList
  let cs := match cs with
    | '+' :: r => r
    | '-' :: r => r
    | r => r
  let ip := takeDigits cs
  let fp := match ip.2 with
    | '.' :: r => takeDigits r
    | r => ([], r)
  if ip.1.isEmpty && fp.1.isEmpty then false
  else
    match fp.2 with
    | [] => true
    | 'e' :: r => isExponentTail r
    | 'E' :: r => isExponentTail r
    | r => isQuantitySuffix (String.mk r)

/-- Model of resource.MustParse: returns the parsed quantity, or none
standing for the Go panic on a malformed string. -/
def mustParse (s : String) : Option Quantity :=
  if isValidQuantity s then some { text := s } else none

/-- Package-level getCommonLabels (shared helpers file): stamps the two
operator-wide identity labels on top of the given map. -/
def Controller.getCommonLabels (labels : Labels) : Labels :=
  (labels.set "app.kubernetes.io/name" "chia").set
    "app.kubernetes.io/managed-by" "chia-operator"

/-- ChiaNodeReconciler.getCommonLabels: merges the variadic additional
label maps in order (later maps win), then stamps the instance identity
keys, then the operator-wide identity keys. -/
def ChiaNodeReconciler.getCommonLabels (node : ChiaNode)
    (additionalLabels : List Labels) : Labels :=
  let labels := additionalLabels.foldl Labels.merge Labels.empty
  let labels := labels.set "app.kubernetes.io/instance" node.name
  let labels := labels.set "chianode-owner" node.name
  Controller.getCommonLabels labels

/-- ChiaNodeReconciler.getOwnerReference: the single owner reference every
ChiaNode child object carries. -/
def ChiaNodeReconciler.getOwnerReference (node : ChiaNode) :
    List OwnerReference :=
  [{ apiVersion := node.apiVersion
     kind := node.kind
     name := node.name
     uid := node.uid
     controller := some Controller.controllerOwner }]

/-- ChiaNodeReconciler.getFullNodePort: determines the correct full node
port to use from the testnet flag alone. -/
def ChiaNodeReconciler.getFullNodePort (node : ChiaNode) : Int :=
  match node.spec.chiaConfig.testnet with
  | some t => if t then testnetNodePort else mainnetNodePort
  | none => mainnetNodePort

/-- The three node service ports shared by the base, internal and headless
services: daemon, peers (full node port) and rpc. -/
def ChiaNodeReconciler.nodeServicePorts (node : ChiaNode) : List ServicePort :=
  [{ port := Controller.daemonPort, targetPort := "daemon",
     protocol := "TCP", name := "daemon" },
   { port := ChiaNodeReconciler.getFullNodePort node, targetPort := "peers",
     protocol := "TCP", name := "peers" },
   { port := nodeRPCPort, targetPort := "rpc",
     protocol := "TCP", name := "rpc" }]

/-- assembleBaseService assembles the main Service resource for a ChiaNode. -/
def ChiaNodeReconciler.assembleBaseService (node : ChiaNode) : Service :=
  { name := node.name ++ "-node"
    namespc := node.namespc
    labels := ChiaNodeReconciler.getCommonLabels node
      [node.spec.additionalMetadata.labels]
    annotations := node.spec.additionalMetadata.annotations
    ownerReferences := ChiaNodeReconciler.getOwnerReference node
    type := node.spec.serviceType
    clusterIP := ""
    internalTrafficPolicy := none
    ports := ChiaNodeReconciler.nodeServicePorts node
    selector := ChiaNodeReconciler.getCommonLabels node
      [node.spec.additionalMetadata.labels] }

/-- assembleInternalService assembles the internal Service resource for a
ChiaNode: ClusterIP type with internal traffic policy Local. -/
def ChiaNodeReconciler.assembleInternalService (node : ChiaNode) : Service :=
  { name := node.name ++ "-node-internal"
    namespc := node.namespc
    labels := ChiaNodeReconciler.getCommonLabels node
      [node.spec.additionalMetadata.labels]
    annotations := node.spec.additionalMetadata.annotations
    ownerReferences := ChiaNodeReconciler.getOwnerReference node
    type := "ClusterIP"
    clusterIP := ""
    internalTrafficPolicy := some "Local"
    ports := ChiaNodeReconciler.nodeServicePorts node
    selector := ChiaNodeReconciler.getCommonLabels node
      [node.spec.additionalMetadata.labels] }

/-- assembleHeadlessService assembles the headless Service resource for a
ChiaNode: ClusterIP None. -/
def ChiaNodeReconciler.assembleHeadlessService (node : ChiaNode) : Service :=
  { name := node.name ++ "-node-headless"
    namespc := node.namespc
    labels := ChiaNodeReconciler.getCommonLabels node
      [node.spec.additionalMetadata.labels]
    annotations := node.spec.additionalMetadata.annotations
    ownerReferences := ChiaNodeReconciler.getOwnerReference node
    type := "ClusterIP"
    clusterIP := "None"
    internalTrafficPolicy := none
    ports := ChiaNodeReconciler.nodeServicePorts node
    selector := ChiaNodeReconciler.getCommonLabels node
      [node.spec.additionalMetadata.labels] }

/-- assembleChiaExporterService assembles the chia-exporter Service for a
ChiaNode: its labels additionally merge the exporter service labels. -/
def ChiaNodeReconciler.assembleChiaExporterService (node : ChiaNode) : Service :=
  { name := node.name ++ "-node-metrics"
    namespc := node.namespc
    labels := ChiaNodeReconciler.getCommonLabels node
      [node.spec.additionalMetadata.labels,
       node.spec.chiaExporterConfig.serviceLabels]
    annotations := node.spec.additionalMetadata.annotations
    ownerReferences := ChiaNodeReconciler.getOwnerReference node
    type := "ClusterIP"
    clusterIP := ""
    internalTrafficPolicy := none
    ports := [{ port := Controller.chiaExporterPort, targetPort := "metrics",
                protocol := "TCP", name := "metrics" }]
    selector := ChiaNodeReconciler.getCommonLabels node
      [node.spec.additionalMetadata.labels] }

/-- getChiaVolumesAndTemplates retrieves the requisite volumes from the
Chia config struct. The PVC is respected first if both it and hostpath are
specified, falls back to hostPath if specified; if both are empty, falls
back to emptyDir so chia-exporter can mount CHIA_ROOT. The none result
stands for the resource.MustParse panic on a malformed storage request. -/
def ChiaNodeReconciler.getChiaVolumesAndTemplates (node : ChiaNode) :
    Option (List Volume × List PersistentVolumeClaim) :=
  let v : List Volume :=
    [{ name := "secret-ca",
       source := .secret node.spec.chiaConfig.caSecretName }]
  match node.spec.storage with
  | some st =>
    match st.chiaRoot with
    | some cr =>
      match cr.persistentVolumeClaim with
      | some pvc =>
        match mustParse pvc.resourceRequest with
        | some q =>
          some (v, [{ name := "chiaroot"
                      accessModes := ["ReadWriteOnce"]
                      storageClassName := pvc.storageClass
                      requestsStorage := q }])
        | none => none
      | none =>
        match cr.hostPathVolume with
        | some hp =>
          some (v ++ [{ name := "chiaroot", source := .hostPath hp.path }], [])
        | none =>
          some (v ++ [{ name := "chiaroot", source := .emptyDir }], [])
    | none => some (v ++ [{ name := "chiaroot", source := .emptyDir }], [])
  | none => some (v ++ [{ name := "chiaroot", source := .emptyDir }], [])

/-- getChiaVolumeMounts retrieves the requisite volume mounts. -/
def ChiaNodeReconciler.getChiaVolumeMounts (_node : ChiaNode) :
    List VolumeMount :=
  [{ name := "secret-ca", mountPath := "/chia-ca" },
   { name := "chiaroot", mountPath := "/chia-data" }]

/-- getChiaNodeEnv retrieves the environment variables from the Chia
config struct: four entries always, then testnet, TZ and log_level
appended conditionally. -/
def ChiaNodeReconciler.getChiaNodeEnv (node : ChiaNode) : List EnvVar :=
  let env : List EnvVar := []
  let env := env ++ [{ name := "service", value := "node" }]
  let env := env ++ [{ name := "CHIA_ROOT", value := "/chia-data" }]
  let env := env ++ [{ name := "keys", value := "none" }]
  let env := env ++ [{ name := "ca", value := "/chia-ca" }]
  let env := match node.spec.chiaConfig.testnet with
    | some t => if t then env ++ [{ name := "testnet", value := "true" }] else env
    | none => env
  let env := match node.spec.chiaConfig.timezone with
    | some tz => env ++ [{ name := "TZ", value := tz }]
    | none => env
  let env := match node.spec.chiaConfig.logLevel with
    | some lv => env ++ [{ name := "log_level", value := lv }]
    | none => env
  env

/-- getChiaExporterContainer (shared helpers file): assembles the
chia-exporter sidecar container spec with fixed probes, port and mount. -/
def Controller.getChiaExporterContainer (image : String)
    (secContext : Option SecurityContext) (pullPolicy : String)
    (resReq : ResourceRequirements) : Container :=
  { name := "chia-exporter"
    securityContext := secContext
    image := image
    imagePullPolicy := pullPolicy
    env := [{ name := "CHIA_ROOT", value := "/chia-data" }]
    ports := [{ name := "metrics",
                containerPort := Controller.chiaExporterPort,
                protocol := "TCP" }]
    livenessProbe := some
      { httpGet := some { path := "/healthz", port := Controller.chiaExporterPort }
        failureThreshold := 0, periodSeconds := 0 }
    readinessProbe := some
      { httpGet := some { path := "/healthz", port := Controller.chiaExporterPort }
        failureThreshold := 0, periodSeconds := 0 }
    startupProbe := some
      { httpGet := some { path := "/healthz", port := Controller.chiaExporterPort }
        failureThreshold := 30, periodSeconds := 10 }
    resources := resReq
    volumeMounts := [{ name := "chiaroot", mountPath := "/chia-data" }] }

/-- assembleStatefulset assembles the node StatefulSet resource: the none
result stands for the resource.MustParse panic raised inside
getChiaVolumesAndTemplates on a malformed storage request. -/
def ChiaNodeReconciler.assembleStatefulset (node : ChiaNode) :
    Option StatefulSet :=
  let chiaSecContext := node.spec.chiaConfig.securityContext
  let chiaLivenessProbe := node.spec.chiaConfig.livenessProbe
  let chiaReadinessProbe := node.spec.chiaConfig.readinessProbe
  let chiaStartupProbe := node.spec.chiaConfig.startupProbe
  let chiaResources :=
    match node.spec.chiaConfig.resources with
    | some r => r
    | none => ResourceRequirements.zero
  let imagePullPolicy :=
    match node.spec.imagePullPolicy with
    | some p => p
    | none => ""
  let chiaExporterImage :=
    if node.spec.chiaExporterConfig.image = "" then
      Controller.defaultChiaExporterImage
    else node.spec.chiaExporterConfig.image
  match ChiaNodeReconciler.getChiaVolumesAndTemplates node with
  | none => none
  | some vt =>
    let chiaContainer : Container :=
      { name := "chia"
        securityContext := chiaSecContext
        image := node.spec.chiaConfig.image
        imagePullPolicy := imagePullPolicy
        env := ChiaNodeReconciler.getChiaNodeEnv node
        ports := [{ name := "daemon", containerPort := Controller.daemonPort,
                    protocol := "TCP" },
                  { name := "peers",
                    containerPort := ChiaNodeReconciler.getFullNodePort node,
                    protocol := "TCP" },
                  { name := "rpc", containerPort := nodeRPCPort,
                    protocol := "TCP" }]
        livenessProbe := chiaLivenessProbe
        readinessProbe := chiaReadinessProbe
        startupProbe := chiaStartupProbe
        resources := chiaResources
        volumeMounts := ChiaNodeReconciler.getChiaVolumeMounts node }
    let exporterContainer := Controller.getChiaExporterContainer
      chiaExporterImage chiaSecContext imagePullPolicy chiaResources
    some
      { name := node.name ++ "-node"
        namespc := node.namespc
        labels := ChiaNodeReconciler.getCommonLabels node
          [node.spec.additionalMetadata.labels]
        annotations := node.spec.additionalMetadata.annotations
        ownerReferences := ChiaNodeReconciler.getOwnerReference node
        replicas := node.spec.replicas
        selectorMatchLabels := ChiaNodeReconciler.getCommonLabels node []
        serviceName := node.name ++ "-headless"
        template :=
          { labels := ChiaNodeReconciler.getCommonLabels node
              [node.spec.additionalMetadata.labels]
            annotations := node.spec.additionalMetadata.annotations
            spec :=
              { containers := [chiaContainer, exporterContainer]
                nodeSelector := node.spec.nodeSelector
                volumes := vt.1
                securityContext := node.spec.podSecurityContext } }
        volumeClaimTemplates := vt.2 }

/-- A reconcile request: the namespaced name of the triggering ChiaNode. -/
structure NamespacedName where
  ns : String
  name : String
deriving DecidableEq

/-- NamespacedName.String() of apimachinery: namespace slash name. -/
def NamespacedName.str (n : NamespacedName) : String :=
  n.ns ++ "/" ++ n.name

/-- The five child resources a ChiaNode reconciliation pass converges, in
program order. -/
inductive ChildKind where
  | baseService
  | internalService
  | headlessService
  | exporterService
  | statefulset
deriving DecidableEq

/-- The resource description used in the wrapping error message of each
convergence call, verbatim from the fmt.Errorf format strings. -/
def ChildKind.resourceDesc : ChildKind → String
  | .baseService => "Service"
  | .internalService => "Local Service"
  | .headlessService => "headless Service"
  | .exporterService => "chia-exporter Service"
  | .statefulset => "StatefulSet"

/-- The wrapped error a failed convergence returns: the Go format string
with the request identity, the resource description and the cause. -/
def childErrMsg (req : NamespacedName) (k : ChildKind) (cause : String) :
    String :=
  "ChiaNodeReconciler ChiaNode=" ++ req.str
    ++ " encountered error reconciling node " ++ k.resourceDesc
    ++ ": " ++ cause

/-- The environment of one reconciliation pass: the outcome the cluster
store gives to each of the five ReconcileResource calls (none is success,
some is the error cause), and the outcome of the status update call. -/
structure Driver where
  childOutcome : ChildKind → Option String
  statusUpdateOutcome : Option String

/-- Result of fetching the triggering ChiaNode from the store. -/
inductive FetchResult where
  | notFound
  | fetchFailed (e : String)
  | found (node : ChiaNode)

/-- How a reconciliation pass ends: normal return without error, return
with an error, or a crash (the resource.MustParse panic). -/
inductive Outcome where
  | ok
  | err (msg : String)
  | crash
deriving DecidableEq

/-- Observable result of one reconciliation pass: which convergence calls
were attempted in order, whether a status update was issued (and with
which readiness value), and how the pass ended. -/
structure PassResult where
  attempted : List ChildKind
  statusWrite : Option Bool
  outcome : Outcome

/-- ChiaNodeReconciler.Reconcile: fetch the custom resource (not-found
ends the pass successfully; a fetch error is returned), then converge the
four Services and the StatefulSet in order, aborting on the first failure
with a wrapped error and without touching the status; after all five
succeed, set Status.Ready true and issue the status update, whose own
error is returned unwrapped. The StatefulSet is assembled after the four
Services converged, so a malformed storage quantity crashes the pass at
that point. -/
def Reconcile (d : Driver) (req : NamespacedName) (fetch : FetchResult) :
    PassResult :=
  match fetch with
  | .notFound => { attempted := [], statusWrite := none, outcome := .ok }
  | .fetchFailed e => { attempted := [], statusWrite := none, outcome := .err e }
  | .found node =>
    match d.childOutcome .baseService with
    | some cause =>
      { attempted := [.baseService], statusWrite := none
        outcome := .err (childErrMsg req .baseService cause) }
    | none =>
      match d.childOutcome .internalService with
      | some cause =>
        { attempted := [.baseService, .internalService], statusWrite := none
          outcome := .err (childErrMsg req .internalService cause) }
      | none =>
        match d.childOutcome .headlessService with
        | some cause =>
          { attempted := [.baseService, .internalService, .headlessService]
            statusWrite := none
            outcome := .err (childErrMsg req .headlessService cause) }
        | none =>
          match d.childOutcome .exporterService with
          | some cause =>
            { attempted := [.baseService, .internalService, .headlessService,
                            .exporterService]
              statusWrite := none
              outcome := .err (childErrMsg req .exporterService cause) }
          | none =>
            match ChiaNodeReconciler.assembleStatefulset node with
            | none =>
              { attempted := [.baseService, .internalService,
                              .headlessService, .exporterService]
                statusWrite := none
                outcome := .crash }
            | some _ =>
              match d.childOutcome .statefulset with
              | some cause =>
                { attempted := [.baseService, .internalService,
                                .headlessService, .exporterService,
                                .statefulset]
                  statusWrite := none
                  outcome := .err (childErrMsg req .statefulset cause) }
              | none =>
                match d.statusUpdateOutcome with
                | some e =>
                  { attempted := [.baseService, .internalService,
                                  .headlessService, .exporterService,
                                  .statefulset]
                    statusWrite := some true
                    outcome := .err e }
                | none =>
                  { attempted := [.baseService, .internalService,
                                  .headlessService, .exporterService,
                                  .statefulset]
                    statusWrite := some true
                    outcome := .ok }

/-- The child kinds converged strictly before the given one. -/
def kindsBefore : ChildKind → List ChildKind
  | .baseService => []
  | .internalService => [.baseService]
  | .headlessService => [.baseService, .internalService]
  | .exporterService => [.baseService, .internalService, .headlessService]
  | .statefulset =>
    [.baseService, .internalService, .headlessService, .exporterService]

/-- The child kinds converged up to and including the given one. -/
def kindsThrough (k : ChildKind) : List ChildKind :=
  kindsBefore k ++ [k]

/-- Concrete chia config: all optional fields unset. -/
def cChiaConfig : ChiaNodeConfigSpec :=
  { caSecretName := "ca-secret"
    testnet := none
    logLevel := none
    timezone := none
    image := "ghcr.io/chia-network/chia:latest"
    livenessProbe := none
    readinessProbe := none
    startupProbe := none
    resources := none
    securityContext := none }

/-- Concrete spec: no storage, no additional labels, everything default. -/
def cSpecW : ChiaNodeSpec :=
  { additionalMetadata := { labels := Labels.empty, annotations := Labels.empty }
    chiaConfig := cChiaConfig
    chiaExporterConfig := { image := "", serviceLabels := Labels.empty }
    storage := none
    serviceType := "ClusterIP"
    imagePullPolicy := none
    nodeSelector := Labels.empty
    podSecurityContext := none
    replicas := none }

/-- Concrete ChiaNode named alpha with the default spec. -/
def cNodeW : ChiaNode :=
  { apiVersion := "k8s.chia.net/v1"
    kind := "ChiaNode"
    name := "alpha"
    namespc := "default"
    uid := "uid-1"
    spec := cSpecW
    statusReady := false }

/-- Concrete node with one user-supplied additional label foo=bar. -/
def cNode2 : ChiaNode :=
  { cNodeW with spec :=
    { cSpecW with additionalMetadata :=
      { labels := Labels.empty.set "foo" "bar"
        annotations := Labels.empty } } }

/-- Concrete node with testnet set to true. -/
def cNodeT : ChiaNode :=
  { cNodeW with spec :=
    { cSpecW with chiaConfig := { cChiaConfig with testnet := some true } } }

/-- A persistent volume claim descriptor with a malformed (empty) storage
size quantity. -/
def cPVCBad : PersistentVolumeClaimConfig :=
  { storageClass := "standard", resourceRequest := "" }

/-- ChiaRoot descriptor holding only the malformed PVC descriptor. -/
def cChiaRootBad : ChiaRootConfig :=
  { persistentVolumeClaim := some cPVCBad, hostPathVolume := none }

/-- Storage block holding the malformed PVC descriptor. -/
def cStorageBad : StorageConfig := { chiaRoot := some cChiaRootBad }

/-- Concrete node with a PVC descriptor whose storage size quantity is
malformed. -/
def cNodeBad : ChiaNode :=
  { cNodeW with spec := { cSpecW with storage := some cStorageBad } }

/-- A well-formed persistent volume claim descriptor. -/
def cPVCGood : PersistentVolumeClaimConfig :=
  { storageClass := "standard", resourceRequest := "10Gi" }

/-- ChiaRoot descriptor with both a well-formed PVC descriptor and a
host-path descriptor set. -/
def cChiaRootPVC : ChiaRootConfig :=
  { persistentVolumeClaim := some cPVCGood
    hostPathVolume := some { path := "/mnt/chia" } }

/-- Storage block with both descriptors set. -/
def cStoragePVC : StorageConfig := { chiaRoot := some cChiaRootPVC }

/-- Concrete node with both a well-formed PVC descriptor and a host-path
descriptor set. -/
def cNodePVC : ChiaNode :=
  { cNodeW with spec := { cSpecW with storage := some cStoragePVC } }

/-- The request matching cNodeW. -/
def reqW : NamespacedName := { ns := "default", name := "alpha" }

/-- A driver whose second convergence call (the internal Service) fails
and all other calls succeed. -/
def dFailSecond : Driver :=
  { childOutcome := fun k =>
      match k with
      | .internalService => some "boom"
      | _ => none
    statusUpdateOutcome := none }

/-- A placeholder StatefulSet used only as the getD default below. -/
def stsDefault : StatefulSet :=
  { name := "", namespc := "", labels := Labels.empty
    annotations := Labels.empty, ownerReferences := [], replicas := none
    selectorMatchLabels := Labels.empty, serviceName := ""
    template := { labels := Labels.empty, annotations := Labels.empty
                  spec := { containers := [], nodeSelector := Labels.empty
                            volumes := [], securityContext := none } }
    volumeClaimTemplates := [] }

/-- The StatefulSet synthesized from cNodeW (its synthesis succeeds, so
the getD default is never taken and assembleStatefulset cNodeW reduces to
some sswAlpha definitionally). -/
def sswAlpha : StatefulSet :=
  (ChiaNodeReconciler.assembleStatefulset cNodeW).getD stsDefault

/-- The four mandatory environment entries of the chia container. -/
def mandatoryChiaNodeEnv : List EnvVar :=
  [{ name := "service", value := "node" },
   { name := "CHIA_ROOT", value := "/chia-data" },
   { name := "keys", value := "none" },
   { name := "ca", value := "/chia-ca" }]

/-- Helper: the fields of a successfully assembled StatefulSet. -/
theorem assembleStatefulset_some_fields {node : ChiaNode} {ss : StatefulSet}
    (h : ChiaNodeReconciler.assembleStatefulset node = some ss) :
    ss.serviceName = node.name ++ "-headless"
    ∧ ss.ownerReferences = ChiaNodeReconciler.getOwnerReference node
    ∧ ss.selectorMatchLabels = ChiaNodeReconciler.getCommonLabels node []
    ∧ ss.template.labels = ChiaNodeReconciler.getCommonLabels node
        [node.spec.additionalMetadata.labels] := by
  rcases hvt : ChiaNodeReconciler.getChiaVolumesAndTemplates node with _ | vt
  · simp [ChiaNodeReconciler.assembleStatefulset, hvt] at h
  · simp only [ChiaNodeReconciler.assembleStatefulset, hvt,
      Option.some.injEq] at h
    subst h
    exact ⟨rfl, rfl, rfl, rfl⟩

/-- Helper: looking up a key in the instance-only common labels succeeds
only at the four identity keys, whose values survive any additional label
maps; hence the instance-only map is a submap of every merged map. -/
theorem getCommonLabels_submap (node : ChiaNode) (adds : List Labels)
    (q v : String)
    (h : ChiaNodeReconciler.getCommonLabels node [] q = some v) :
    ChiaNodeReconciler.getCommonLabels node adds q = some v := by
  by_cases h1 : q = "app.kubernetes.io/managed-by" <;>
    by_cases h2 : q = "app.kubernetes.io/name" <;>
      by_cases h3 : q = "chianode-owner" <;>
        by_cases h4 : q = "app.kubernetes.io/instance" <;>
          simp_all [ChiaNodeReconciler.getCommonLabels,
            Controller.getCommonLabels, Labels.set, Labels.empty]

/-- Claim C5 (confirmed): the primary peer port is a pure function of the
testnet flag alone: it equals the testnet constant 58444 when testnet is
true and the mainnet constant 8444 when testnet is false or unset, and is
never user-overridable (any two Specs agreeing on the flag agree on the
port); the daemon port 55400 and rpc port 8555 are constant regardless of
testnet, as witnessed by the base Service port list. -/
theorem chianode_port_policy (node : ChiaNode) :
    (node.spec.chiaConfig.testnet = some true →
      ChiaNodeReconciler.getFullNodePort node = testnetNodePort)
    ∧ ((node.spec.chiaConfig.testnet = some false ∨
        node.spec.chiaConfig.testnet = none) →
      ChiaNodeReconciler.getFullNodePort node = mainnetNodePort)
    ∧ (∀ m : ChiaNode,
        m.spec.chiaConfig.testnet = node.spec.chiaConfig.testnet →
        ChiaNodeReconciler.getFullNodePort m =
          ChiaNodeReconciler.getFullNodePort node)
    ∧ testnetNodePort = 58444 ∧ mainnetNodePort = 8444
    ∧ (ChiaNodeReconciler.assembleBaseService node).ports.map ServicePort.port
        = [Controller.daemonPort, ChiaNodeReconciler.getFullNodePort node,
           nodeRPCPort]
    ∧ Controller.daemonPort = 55400 ∧ nodeRPCPort = 8555 := by
  refine ⟨?_, ?_, ?_, rfl, rfl, rfl, rfl, rfl⟩
  · intro h; simp [ChiaNodeReconciler.getFullNodePort, h]
  · rintro (h | h) <;> simp [ChiaNodeReconciler.getFullNodePort, h]
  · intro m h; simp [ChiaNodeReconciler.getFullNodePort, h]

/-- Witness for C5 at concrete inputs: testnet true gives 58444, testnet
unset gives 8444. -/
theorem chianode_port_policy_witness :
    ChiaNodeReconciler.getFullNodePort cNodeT = 58444
    ∧ ChiaNodeReconciler.getFullNodePort cNodeW = 8444 :=
  ⟨(chianode_port_policy cNodeT).1 rfl,
   (chianode_port_policy cNodeW).2.1 (Or.inr rfl)⟩

/-- Claim C6 (confirmed): for every Spec and every list of user-supplied
additional label maps, even ones that set a reserved key such as
app.kubernetes.io/managed-by, the synthesized label set carries the fixed
identity values for the reserved keys, because identity keys are applied
after the user labels. -/
theorem chianode_identity_labels (node : ChiaNode) (adds : List Labels) :
    ChiaNodeReconciler.getCommonLabels node adds "app.kubernetes.io/managed-by"
      = some "chia-operator"
    ∧ ChiaNodeReconciler.getCommonLabels node adds "app.kubernetes.io/name"
      = some "chia"
    ∧ ChiaNodeReconciler.getCommonLabels node adds "app.kubernetes.io/instance"
      = some node.name
    ∧ ChiaNodeReconciler.getCommonLabels node adds "chianode-owner"
      = some node.name
    ∧ (ChiaNodeReconciler.assembleBaseService node).labels
        "app.kubernetes.io/managed-by" = some "chia-operator" :=
  ⟨rfl, rfl, rfl, rfl, rfl⟩

/-- Claim C4 (confirmed): the chia container environment always starts
with the four entries service, CHIA_ROOT, keys, ca in that order, appends
testnet, TZ and log_level only when the corresponding optional field
demands it; all three unset gives exactly the four mandatory entries, and
testnet=true alone appends exactly one entry with value true. -/
theorem chianode_env_policy (node : ChiaNode) :
    ChiaNodeReconciler.getChiaNodeEnv node =
      mandatoryChiaNodeEnv
        ++ (if node.spec.chiaConfig.testnet = some true then
              [{ name := "testnet", value := "true" }] else [])
        ++ (match node.spec.chiaConfig.timezone with
            | some tz => [{ name := "TZ", value := tz }]
            | none => [])
        ++ (match node.spec.chiaConfig.logLevel with
            | some lv => [{ name := "log_level", value := lv }]
            | none => [])
    ∧ (node.spec.chiaConfig.testnet = none →
        node.spec.chiaConfig.timezone = none →
        node.spec.chiaConfig.logLevel = none →
        ChiaNodeReconciler.getChiaNodeEnv node = mandatoryChiaNodeEnv)
    ∧ (node.spec.chiaConfig.testnet = some true →
        node.spec.chiaConfig.timezone = none →
        node.spec.chiaConfig.logLevel = none →
        ChiaNodeReconciler.getChiaNodeEnv node =
          mandatoryChiaNodeEnv ++ [{ name := "testnet", value := "true" }]) := by
  refine ⟨?_, ?_, ?_⟩
  · rcases ht : node.spec.chiaConfig.testnet with _ | b
    · rcases htz : node.spec.chiaConfig.timezone with _ | tz <;>
        rcases hl : node.spec.chiaConfig.logLevel with _ | lv <;>
          simp [ChiaNodeReconciler.getChiaNodeEnv, mandatoryChiaNodeEnv,
            ht, htz, hl]
    · cases b <;>
        rcases htz : node.spec.chiaConfig.timezone with _ | tz <;>
          rcases hl : node.spec.chiaConfig.logLevel with _ | lv <;>
            simp [ChiaNodeReconciler.getChiaNodeEnv, mandatoryChiaNodeEnv,
              ht, htz, hl]
  · intro h1 h2 h3
    simp [ChiaNodeReconciler.getChiaNodeEnv, mandatoryChiaNodeEnv, h1, h2, h3]
  · intro h1 h2 h3
    simp [ChiaNodeReconciler.getChiaNodeEnv, mandatoryChiaNodeEnv, h1, h2, h3]

/-- Witness for C4 at concrete inputs: all optional fields unset gives
exactly the four mandatory entries; testnet=true alone appends exactly one
extra entry with value true. -/
theorem chianode_env_policy_witness :
    ChiaNodeReconciler.getChiaNodeEnv cNodeW = mandatoryChiaNodeEnv
    ∧ ChiaNodeReconciler.getChiaNodeEnv cNodeT =
        mandatoryChiaNodeEnv ++ [{ name := "testnet", value := "true" }] :=
  ⟨(chianode_env_policy cNodeW).2.1 rfl rfl rfl,
   (chianode_env_policy cNodeT).2.2 rfl rfl rfl⟩

/-- Claim C9 (confirmed): a not-found result when fetching the triggering
Spec ends the reconciliation pass successfully with no error, no
convergence call attempted and no status written. -/
theorem reconcile_not_found (d : Driver) (req : NamespacedName) :
    Reconcile d req .notFound =
      { attempted := [], statusWrite := none, outcome := .ok } := rfl

/-- Claim C10 (confirmed): the stateful workload's governing service name
is the Spec name plus "-headless" while the headless Service is named the
Spec name plus "-node-headless"; for a non-empty Spec name the governing
service name differs from the name of every synthesized Service. -/
theorem chianode_governing_service_name (node : ChiaNode) (ss : StatefulSet)
    (hss : ChiaNodeReconciler.assembleStatefulset node = some ss) :
    ss.serviceName = node.name ++ "-headless"
    ∧ (ChiaNodeReconciler.assembleHeadlessService node).name
        = node.name ++ "-node-headless"
    ∧ (node.name ≠ "" →
        ss.serviceName ≠ (ChiaNodeReconciler.assembleBaseService node).name
        ∧ ss.serviceName ≠ (ChiaNodeReconciler.assembleInternalService node).name
        ∧ ss.serviceName ≠ (ChiaNodeReconciler.assembleHeadlessService node).name
        ∧ ss.serviceName ≠
            (ChiaNodeReconciler.assembleChiaExporterService node).name) := by
  obtain ⟨hsn, -, -, -⟩ := assembleStatefulset_some_fields hss
  refine ⟨hsn, rfl, fun _ => ⟨?_, ?_, ?_, ?_⟩⟩ <;>
  · rw [hsn]
    intro hEq
    have h2 := congrArg String.data hEq
    simp [ChiaNodeReconciler.assembleBaseService,
      ChiaNodeReconciler.assembleInternalService,
      ChiaNodeReconciler.assembleHeadlessService,
      ChiaNodeReconciler.assembleChiaExporterService,
      String.data_append] at h2

/-- Witness for C10 at the concrete node alpha. -/
theorem chianode_governing_service_name_witness :
    sswAlpha.serviceName = "alpha" ++ "-headless"
    ∧ sswAlpha.serviceName ≠
        (ChiaNodeReconciler.assembleHeadlessService cNodeW).name := by
  have h := chianode_governing_service_name cNodeW sswAlpha rfl
  exact ⟨h.1, (h.2.2 (by decide)).2.2.1⟩

/-- Counterexample to C1 as stated: a Spec whose PVC descriptor carries a
malformed (empty) storage size quantity makes synthesis itself fail (the
none result models the resource.MustParse panic inside
getChiaVolumesAndTemplates), so the malformed field does not survive to
driver submission. -/
theorem chianode_synthesis_fails_on_malformed_quantity :
    mustParse cPVCBad.resourceRequest = none
    ∧ ChiaNodeReconciler.getChiaVolumesAndTemplates cNodeBad = none
    ∧ ChiaNodeReconciler.assembleStatefulset cNodeBad = none :=
  ⟨rfl, rfl, rfl⟩

/-- Claim C1 (corrected): synthesis of the volumes and claim templates
(and hence of the stateful workload) fails exactly when the Spec carries a
persistent-volume-claim descriptor whose storage size quantity does not
parse; it succeeds for every other Spec. -/
theorem chianode_synthesis_totality (node : ChiaNode) :
    (ChiaNodeReconciler.getChiaVolumesAndTemplates node = none ↔
      ∃ st cr pvc, node.spec.storage = some st ∧ st.chiaRoot = some cr
        ∧ cr.persistentVolumeClaim = some pvc
        ∧ mustParse pvc.resourceRequest = none)
    ∧ (ChiaNodeReconciler.assembleStatefulset node).isSome
        = (ChiaNodeReconciler.getChiaVolumesAndTemplates node).isSome := by
  constructor
  · constructor
    · intro h
      rcases hst : node.spec.storage with _ | st
      · simp [ChiaNodeReconciler.getChiaVolumesAndTemplates, hst] at h
      · rcases hcr : st.chiaRoot with _ | cr
        · simp [ChiaNodeReconciler.getChiaVolumesAndTemplates, hst, hcr] at h
        · rcases hp : cr.persistentVolumeClaim with _ | pvc
          · rcases hh : cr.hostPathVolume with _ | hpv <;>
              simp [ChiaNodeReconciler.getChiaVolumesAndTemplates,
                hst, hcr, hp, hh] at h
          · rcases hq : mustParse pvc.resourceRequest with _ | q
            · exact ⟨st, cr, pvc, rfl, hcr, hp, hq⟩
            · simp [ChiaNodeReconciler.getChiaVolumesAndTemplates,
                hst, hcr, hp, hq] at h
    · rintro ⟨st, cr, pvc, hst, hcr, hp, hq⟩
      simp [ChiaNodeReconciler.getChiaVolumesAndTemplates, hst, hcr, hp, hq]
  · rcases hvt : ChiaNodeReconciler.getChiaVolumesAndTemplates node with _ | vt <;>
      simp [ChiaNodeReconciler.assembleStatefulset, hvt]

/-- Witness for C1 at the concrete malformed input: the characterization
applied at cNodeBad, discharging the existential with the concrete
descriptors. -/
theorem chianode_synthesis_totality_witness :
    ChiaNodeReconciler.getChiaVolumesAndTemplates cNodeBad = none :=
  (chianode_synthesis_totality cNodeBad).1.mpr
    ⟨cStorageBad, cChiaRootBad, cPVCBad, rfl, rfl, rfl, rfl⟩

/-- Claim C3 (confirmed): chiaroot storage selection is mutually exclusive
and ordered: with a PVC descriptor set (host-path possibly set too) only
the chiaroot claim template is produced and no host-path volume; with only
a host-path descriptor a chiaroot host-path volume; with neither, exactly
one chiaroot empty-directory volume; and whenever synthesis succeeds there
is exactly one chiaroot storage per pod. -/
theorem chianode_volume_selection (node : ChiaNode) :
    (∀ st cr pvc q, node.spec.storage = some st → st.chiaRoot = some cr →
      cr.persistentVolumeClaim = some pvc →
      mustParse pvc.resourceRequest = some q →
      ChiaNodeReconciler.getChiaVolumesAndTemplates node =
        some ([{ name := "secret-ca",
                 source := .secret node.spec.chiaConfig.caSecretName }],
              [{ name := "chiaroot", accessModes := ["ReadWriteOnce"],
                 storageClassName := pvc.storageClass,
                 requestsStorage := q }]))
    ∧ (∀ st cr hp, node.spec.storage = some st → st.chiaRoot = some cr →
      cr.persistentVolumeClaim = none → cr.hostPathVolume = some hp →
      ChiaNodeReconciler.getChiaVolumesAndTemplates node =
        some ([{ name := "secret-ca",
                 source := .secret node.spec.chiaConfig.caSecretName },
               { name := "chiaroot", source := .hostPath hp.path }], []))
    ∧ ((node.spec.storage = none
        ∨ (∃ st, node.spec.storage = some st ∧ st.chiaRoot = none)
        ∨ (∃ st cr, node.spec.storage = some st ∧ st.chiaRoot = some cr
            ∧ cr.persistentVolumeClaim = none ∧ cr.hostPathVolume = none)) →
      ChiaNodeReconciler.getChiaVolumesAndTemplates node =
        some ([{ name := "secret-ca",
                 source := .secret node.spec.chiaConfig.caSecretName },
               { name := "chiaroot", source := .emptyDir }], []))
    ∧ (∀ v vcts,
        ChiaNodeReconciler.getChiaVolumesAndTemplates node = some (v, vcts) →
        (v.filter (fun vol => vol.name == "chiaroot")).length
          + (vcts.filter (fun c => c.name == "chiaroot")).length = 1) := by
  refine ⟨?_, ?_, ?_, ?_⟩
  · intro st cr pvc q hst hcr hp hq
    simp [ChiaNodeReconciler.getChiaVolumesAndTemplates, hst, hcr, hp, hq]
  · intro st cr hp hst hcr hpvc hhp
    simp [ChiaNodeReconciler.getChiaVolumesAndTemplates, hst, hcr, hpvc, hhp]
  · rintro (hst | ⟨st, hst, hcr⟩ | ⟨st, cr, hst, hcr, hpvc, hhp⟩)
    · simp [ChiaNodeReconciler.getChiaVolumesAndTemplates, hst]
    · simp [ChiaNodeReconciler.getChiaVolumesAndTemplates, hst, hcr]
    · simp [ChiaNodeReconciler.getChiaVolumesAndTemplates, hst, hcr, hpvc, hhp]
  · intro v vcts h
    rcases hst : node.spec.storage with _ | st
    · simp [ChiaNodeReconciler.getChiaVolumesAndTemplates, hst] at h
      obtain ⟨h1, h2⟩ := h
      subst h1; subst h2; rfl
    · rcases hcr : st.chiaRoot with _ | cr
      · simp [ChiaNodeReconciler.getChiaVolumesAndTemplates, hst, hcr] at h
        obtain ⟨h1, h2⟩ := h
        subst h1; subst h2; rfl
      · rcases hp : cr.persistentVolumeClaim with _ | pvc
        · rcases hh : cr.hostPathVolume with _ | hpv
          · simp [ChiaNodeReconciler.getChiaVolumesAndTemplates,
              hst, hcr, hp, hh] at h
            obtain ⟨h1, h2⟩ := h
            subst h1; subst h2; rfl
          · simp [ChiaNodeReconciler.getChiaVolumesAndTemplates,
              hst, hcr, hp, hh] at h
            obtain ⟨h1, h2⟩ := h
            subst h1; subst h2; rfl
        · rcases hq : mustParse pvc.resourceRequest with _ | q
          · simp [ChiaNodeReconciler.getChiaVolumesAndTemplates,
              hst, hcr, hp, hq] at h
          · simp [ChiaNodeReconciler.getChiaVolumesAndTemplates,
              hst, hcr, hp, hq] at h
            obtain ⟨h1, h2⟩ := h
            subst h1; subst h2; rfl

/-- Witness for C3 at concrete inputs: the node with both descriptors set
produces only the claim template, and the storage-free node produces the
single empty-directory chiaroot volume; both have exactly one chiaroot
storage. -/
theorem chianode_volume_selection_witness :
    ChiaNodeReconciler.getChiaVolumesAndTemplates cNodePVC =
      some ([{ name := "secret-ca", source := .secret "ca-secret" }],
            [{ name := "chiaroot", accessModes := ["ReadWriteOnce"],
               storageClassName := "standard",
               requestsStorage := { text := "10Gi" } }])
    ∧ ChiaNodeReconciler.getChiaVolumesAndTemplates cNodeW =
        some ([{ name := "secret-ca", source := .secret "ca-secret" },
               { name := "chiaroot", source := .emptyDir }], []) := by
  have h1 := (chianode_volume_selection cNodePVC).1 cStoragePVC cChiaRootPVC
    cPVCGood { text := "10Gi" } rfl rfl rfl rfl
  have h2 := (chianode_volume_selection cNodeW).2.2.1 (Or.inl rfl)
  exact ⟨h1, h2⟩

/-- Counterexample to C2 as stated: with a user-supplied additional label
foo=bar, every Service selector (and the pod template) carries foo=bar but
the stateful workload's label selector does not, so the three label sets
are not all identical. -/
theorem chianode_selectors_differ_on_user_labels :
    (ChiaNodeReconciler.assembleBaseService cNode2).selector "foo" = some "bar"
    ∧ Option.map (fun ss => ss.selectorMatchLabels "foo")
        (ChiaNodeReconciler.assembleStatefulset cNode2) = some none :=
  ⟨rfl, rfl⟩

/-- Claim C2 (corrected): the four Service selectors and the pod-template
label set are all identical; the stateful workload's label selector
carries the identity labels only, so it is a submap of the pod-template
labels in general and identical to the Service selectors exactly when no
additional user label map is supplied. -/
theorem chianode_selector_alignment (node : ChiaNode) (ss : StatefulSet)
    (hss : ChiaNodeReconciler.assembleStatefulset node = some ss) :
    (ChiaNodeReconciler.assembleBaseService node).selector
      = (ChiaNodeReconciler.assembleInternalService node).selector
    ∧ (ChiaNodeReconciler.assembleBaseService node).selector
      = (ChiaNodeReconciler.assembleHeadlessService node).selector
    ∧ (ChiaNodeReconciler.assembleBaseService node).selector
      = (ChiaNodeReconciler.assembleChiaExporterService node).selector
    ∧ ss.template.labels = (ChiaNodeReconciler.assembleBaseService node).selector
    ∧ (∀ q v, ss.selectorMatchLabels q = some v → ss.template.labels q = some v)
    ∧ (node.spec.additionalMetadata.labels = Labels.empty →
        ss.selectorMatchLabels =
          (ChiaNodeReconciler.assembleBaseService node).selector) := by
  obtain ⟨-, -, hsel, hlab⟩ := assembleStatefulset_some_fields hss
  refine ⟨rfl, rfl, rfl, hlab, ?_, ?_⟩
  · intro q v h
    rw [hsel] at h
    rw [hlab]
    exact getCommonLabels_submap node [node.spec.additionalMetadata.labels] q v h
  · intro hadds
    rw [hsel]
    show ChiaNodeReconciler.getCommonLabels node [] =
      ChiaNodeReconciler.getCommonLabels node [node.spec.additionalMetadata.labels]
    rw [hadds]
    funext q
    simp [ChiaNodeReconciler.getCommonLabels, Controller.getCommonLabels,
      Labels.set, Labels.empty, Labels.merge]

/-- Witness for C2 at the concrete node alpha (no additional labels): all
selectors coincide there. -/
theorem chianode_selector_alignment_witness :
    (ChiaNodeReconciler.assembleBaseService cNodeW).selector
      = (ChiaNodeReconciler.assembleHeadlessService cNodeW).selector
    ∧ sswAlpha.selectorMatchLabels =
        (ChiaNodeReconciler.assembleBaseService cNodeW).selector := by
  have h := chianode_selector_alignment cNodeW sswAlpha rfl
  exact ⟨h.2.1, h.2.2.2.2.2 rfl⟩

/-- Claim C8 (confirmed): every child resource synthesized from a Spec
(the four Services and the stateful workload) carries exactly one owner
reference, with controller=true, referencing the Spec's API version, kind,
name and UID. -/
theorem chianode_owner_reference (node : ChiaNode) (ss : StatefulSet)
    (hss : ChiaNodeReconciler.assembleStatefulset node = some ss) :
    (ChiaNodeReconciler.assembleBaseService node).ownerReferences
      = [{ apiVersion := node.apiVersion, kind := node.kind,
           name := node.name, uid := node.uid, controller := some true }]
    ∧ (ChiaNodeReconciler.assembleInternalService node).ownerReferences
      = [{ apiVersion := node.apiVersion, kind := node.kind,
           name := node.name, uid := node.uid, controller := some true }]
    ∧ (ChiaNodeReconciler.assembleHeadlessService node).ownerReferences
      = [{ apiVersion := node.apiVersion, kind := node.kind,
           name := node.name, uid := node.uid, controller := some true }]
    ∧ (ChiaNodeReconciler.assembleChiaExporterService node).ownerReferences
      = [{ apiVersion := node.apiVersion, kind := node.kind,
           name := node.name, uid := node.uid, controller := some true }]
    ∧ ss.ownerReferences
      = [{ apiVersion := node.apiVersion, kind := node.kind,
           name := node.name, uid := node.uid, controller := some true }]
    ∧ Controller.controllerOwner = true := by
  obtain ⟨-, hor, -, -⟩ := assembleStatefulset_some_fields hss
  exact ⟨rfl, rfl, rfl, rfl, by rw [hor]; rfl, rfl⟩

/-- Witness for C8 at the concrete node alpha. -/
theorem chianode_owner_reference_witness :
    sswAlpha.ownerReferences
      = [{ apiVersion := "k8s.chia.net/v1", kind := "ChiaNode",
           name := "alpha", uid := "uid-1", controller := some true }]
    ∧ (ChiaNodeReconciler.assembleBaseService cNodeW).ownerReferences
      = [{ apiVersion := "k8s.chia.net/v1", kind := "ChiaNode",
           name := "alpha", uid := "uid-1", controller := some true }] := by
  have h := chianode_owner_reference cNodeW sswAlpha rfl
  exact ⟨h.2.2.2.2.1, h.1⟩

/-- Helper: a reconciliation pass issues the readiness status write only
when every one of the five convergence calls succeeded. -/
theorem statusWrite_true_all_ok (d : Driver) (req : NamespacedName)
    (node : ChiaNode)
    (h : (Reconcile d req (.found node)).statusWrite = some true) :
    ∀ j : ChildKind, d.childOutcome j = none := by
  intro j
  rcases h1 : d.childOutcome .baseService with _ | c1
  case some => simp [Reconcile, h1] at h
  rcases h2 : d.childOutcome .internalService with _ | c2
  case some => simp [Reconcile, h1, h2] at h
  rcases h3 : d.childOutcome .headlessService with _ | c3
  case some => simp [Reconcile, h1, h2, h3] at h
  rcases h4 : d.childOutcome .exporterService with _ | c4
  case some => simp [Reconcile, h1, h2, h3, h4] at h
  rcases hs : ChiaNodeReconciler.assembleStatefulset node with _ | ss
  case none => simp [Reconcile, h1, h2, h3, h4, hs] at h
  rcases h5 : d.childOutcome .statefulset with _ | c5
  case some => simp [Reconcile, h1, h2, h3, h4, hs, h5] at h
  cases j <;> assumption

/-- Claim C7 (confirmed): when the convergence of some child resource
fails and every earlier one succeeded, the pass attempts exactly the
children up to the failing one, issues no status write, and returns the
wrapped error naming the failing resource description and the Spec's
namespaced identity; and in any pass the readiness write is issued only
after all five children converged. -/
theorem reconcile_child_failure (d : Driver) (req : NamespacedName)
    (node : ChiaNode) (k : ChildKind) (cause : String)
    (hsyn : (ChiaNodeReconciler.assembleStatefulset node).isSome = true)
    (hfail : d.childOutcome k = some cause)
    (hok : (kindsBefore k).all (fun j => (d.childOutcome j).isNone) = true) :
    (Reconcile d req (.found node)).attempted = kindsThrough k
    ∧ (Reconcile d req (.found node)).statusWrite = none
    ∧ (Reconcile d req (.found node)).outcome
        = .err (childErrMsg req k cause)
    ∧ ∀ d' : Driver,
        (Reconcile d' req (.found node)).statusWrite = some true →
        ∀ j : ChildKind, d'.childOutcome j = none := by
  obtain ⟨ss, hss⟩ := Option.isSome_iff_exists.mp hsyn
  cases k
  case baseService =>
    refine ⟨?_, ?_, ?_, fun d' h j => statusWrite_true_all_ok d' req node h j⟩ <;>
      simp [Reconcile, hfail, kindsThrough, kindsBefore]
  case internalService =>
    simp only [kindsBefore, List.all_cons, List.all_nil, Bool.and_true,
      Option.isNone_iff_eq_none] at hok
    refine ⟨?_, ?_, ?_, fun d' h j => statusWrite_true_all_ok d' req node h j⟩ <;>
      simp [Reconcile, hok, hfail, kindsThrough, kindsBefore]
  case headlessService =>
    simp only [kindsBefore, List.all_cons, List.all_nil, Bool.and_true,
      Bool.and_eq_true, Option.isNone_iff_eq_none] at hok
    refine ⟨?_, ?_, ?_, fun d' h j => statusWrite_true_all_ok d' req node h j⟩ <;>
      simp [Reconcile, hok.1, hok.2, hfail, kindsThrough, kindsBefore]
  case exporterService =>
    simp only [kindsBefore, List.all_cons, List.all_nil, Bool.and_true,
      Bool.and_eq_true, Option.isNone_iff_eq_none] at hok
    refine ⟨?_, ?_, ?_, fun d' h j => statusWrite_true_all_ok d' req node h j⟩ <;>
      simp [Reconcile, hok.1, hok.2.1, hok.2.2, hfail, kindsThrough, kindsBefore]
  case statefulset =>
    simp only [kindsBefore, List.all_cons, List.all_nil, Bool.and_true,
      Bool.and_eq_true, Option.isNone_iff_eq_none] at hok
    refine ⟨?_, ?_, ?_, fun d' h j => statusWrite_true_all_ok d' req node h j⟩ <;>
      simp [Reconcile, hok.1, hok.2.1, hok.2.2.1, hok.2.2.2, hss, hfail,
        kindsThrough, kindsBefore]

/-- Witness for C7 at a concrete pass whose second convergence call (the
internal Service) fails: the first child was attempted and remains the
only other attempt, no status write is issued, and the error names the
Local Service and the Spec identity default/alpha. -/
theorem reconcile_child_failure_witness :
    (Reconcile dFailSecond reqW (.found cNodeW)).attempted
      = [ChildKind.baseService, ChildKind.internalService]
    ∧ (Reconcile dFailSecond reqW (.found cNodeW)).statusWrite = none
    ∧ (Reconcile dFailSecond reqW (.found cNodeW)).outcome
      = .err ("ChiaNodeReconciler ChiaNode=default/alpha encountered error reconciling node Local Service: boom") := by
  have h := reconcile_child_failure dFailSecond reqW cNodeW
    .internalService "boom" rfl rfl rfl
  exact ⟨h.1, h.2.1, h.2.2.1⟩
